import Mathlib

/-!
Shallow embedding of the timing core of the `tempo` metronome application
(`src/metronome.py`): the `MetronomeEngine` scheduler and the `TapTempo`
estimator, with theorems settling the specification claims about them.

Python floats are modelled as rationals (ℚ), Python ints as ℤ, and a raised
exception as an explicit error value.  The timing thread's loop body is
modelled as a pure state-transition function parameterised by the value
`time.perf_counter()` returns at the top of the body; a run of the loop is a
fold of that body over the list of observed clock readings.
-/

/-- The `MetronomeState` dataclass (metronome.py lines 16-24). -/
structure MetronomeState where
  bpm : ℤ
  beats_per_bar : ℤ
  beat_value : ℤ
  is_running : Bool
  current_beat : ℤ
  is_playing : Bool
deriving Repr, DecidableEq

/-- Default field values of the `MetronomeState` dataclass. -/
def MetronomeState.default : MetronomeState :=
  { bpm := 120, beats_per_bar := 4, beat_value := 4,
    is_running := false, current_beat := 0, is_playing := false }

/-- A beat notification as handed to `beat_callback`: the pair
`(self.state.current_beat, is_downbeat)` of metronome.py line 153. -/
structure BeatEvent where
  beatIndex : ℤ
  isDownbeat : Bool
deriving Repr, DecidableEq

/-- The `MetronomeEngine` instance attributes (metronome.py lines 36-49).
`stop_event` models `self._stop_event.is_set()`; `has_thread` models
`self._thread is not None`; `thread_alive` tracks whether the spawned OS
thread is still running (true from `start()` until a successful join). -/
structure MetronomeEngine where
  state : MetronomeState
  stop_event : Bool
  has_thread : Bool
  thread_alive : Bool
  next_beat_time : ℚ
  beat_duration : ℚ
deriving Repr, DecidableEq

/-- Model of `MetronomeEngine.__init__`: default state, stop event cleared, no thread,
`_next_beat_time = 0.0`, `_beat_duration = 0.5`. -/
def MetronomeEngine.init : MetronomeEngine :=
  { state := MetronomeState.default, stop_event := false,
    has_thread := false, thread_alive := false,
    next_beat_time := 0, beat_duration := 1/2 }

/-- Model of `MetronomeEngine.start` (lines 51-63): early return when already running;
otherwise set the running flags, reset the beat counter, clear the stop event
and spawn the timing thread. -/
def MetronomeEngine.start (e : MetronomeEngine) : MetronomeEngine :=
  if e.state.is_running then e
  else
    { e with
      state := { e.state with is_running := true, is_playing := true, current_beat := 0 },
      stop_event := false, has_thread := true, thread_alive := true }

/-- The timeout (seconds) passed to `Thread.join` in `stop` (line 78). -/
def stop_join_timeout : ℚ := 1

/-- Model of `MetronomeEngine.stop` (lines 65-80): early return when not running;
otherwise clear the running flags, set the stop event, join the thread with
`timeout=1.0` and drop the thread reference.  The environment parameter
`join_ok` says whether the thread actually terminated within the join bound;
the code never inspects the join outcome, so the returned error component is
`none` in every case (`Thread.join` returns `None` and `is_alive` is never
re-checked). -/
def MetronomeEngine.stop (e : MetronomeEngine) (join_ok : Bool) : MetronomeEngine × Option String :=
  if !e.state.is_running then (e, none)
  else
    ({ e with
       state := { e.state with is_running := false, is_playing := false },
       stop_event := true, has_thread := false,
       thread_alive := e.thread_alive && !join_ok }, none)

/-- Model of `MetronomeEngine.set_tempo` (lines 82-93): validate `40 <= bpm <= 240`,
raising `ValueError` (state untouched) when out of range; on success store
`bpm` and set `_beat_duration = 60.0 / bpm`. -/
def MetronomeEngine.set_tempo (e : MetronomeEngine) (bpm : ℤ) : MetronomeEngine × Option String :=
  if !(40 ≤ bpm ∧ bpm ≤ 240) then
    (e, some ("ValueError: BPM must be between 40 and 240, got " ++ toString bpm))
  else
    ({ e with
       state := { e.state with bpm := bpm },
       beat_duration := 60 / (bpm : ℚ) }, none)

/-- Model of `MetronomeEngine.set_time_signature` (lines 95-110): validate the
numerator range and the denominator membership, raising `ValueError` (state
untouched) on failure; on success store both fields. -/
def MetronomeEngine.set_time_signature (e : MetronomeEngine) (numerator denominator : ℤ) :
    MetronomeEngine × Option String :=
  if !(1 ≤ numerator ∧ numerator ≤ 16) then
    (e, some ("ValueError: Time signature numerator must be 1-16, got " ++ toString numerator))
  else if !(denominator = 2 ∨ denominator = 4 ∨ denominator = 8 ∨ denominator = 16) then
    (e, some ("ValueError: Time signature denominator must be 2, 4, 8, or 16, got "
              ++ toString denominator))
  else
    ({ e with state := { e.state with beats_per_bar := numerator, beat_value := denominator } },
     none)

/-- Model of `MetronomeEngine.reset_beat_counter` (lines 112-114). -/
def MetronomeEngine.reset_beat_counter (e : MetronomeEngine) : MetronomeEngine :=
  { e with state := { e.state with current_beat := 0 } }

/-- Initialisation at the top of `_run_loop` (lines 122-124):
`_beat_duration = 60.0 / bpm`, `_next_beat_time = perf_counter() + _beat_duration`. -/
def MetronomeEngine.run_loop_init (e : MetronomeEngine) (now : ℚ) : MetronomeEngine :=
  let d := 60 / (e.state.bpm : ℚ)
  { e with beat_duration := d, next_beat_time := now + d }

/-- One execution of the body of the timing loop past the stop checks
(`_run_loop`, lines 141-164), with `now` the value `time.perf_counter()`
returned at line 142.  Stall recovery resets `_next_beat_time` to `now` when
the loop fell behind by more than one beat duration; then one beat event is
emitted for the current counter, the counter is incremented, the deadline is
advanced by the (pre-update) beat duration, and the beat duration is
refreshed from `bpm` when it moved by more than the 1 ms tolerance. -/
def MetronomeEngine.loop_iter (e : MetronomeEngine) (now : ℚ) : MetronomeEngine × BeatEvent :=
  let nbt0 := if e.next_beat_time + e.beat_duration < now then now else e.next_beat_time
  let is_downbeat := e.state.current_beat % e.state.beats_per_bar == 0
  let ev : BeatEvent := { beatIndex := e.state.current_beat, isDownbeat := is_downbeat }
  let new_duration := 60 / (e.state.bpm : ℚ)
  let duration := if 1/1000 < |new_duration - e.beat_duration| then new_duration
                  else e.beat_duration
  ({ e with
     state := { e.state with current_beat := e.state.current_beat + 1 },
     next_beat_time := nbt0 + e.beat_duration,
     beat_duration := duration }, ev)

/-- A run of the `while not self._stop_event.is_set()` loop (line 126), fed
the successive clock readings of its iterations: each iteration first checks
the stop event (exiting without emitting when set, lines 126/134-139), then
executes the loop body.  Returns the final engine state and the list of
emitted beat events in order. -/
def MetronomeEngine.run_while (e : MetronomeEngine) : List ℚ → MetronomeEngine × List BeatEvent
  | [] => (e, [])
  | now :: rest =>
    if e.stop_event then (e, [])
    else
      let step := e.loop_iter now
      let tail := step.1.run_while rest
      (tail.1, step.2 :: tail.2)

/-- The dictionary returned by `get_beat_info` (lines 168-183); the
`time_signature` f-string is modelled as the numerator/denominator pair. -/
structure BeatInfo where
  current_beat : ℤ
  beats_per_bar : ℤ
  beat_in_bar : ℤ
  is_downbeat : Bool
  is_running : Bool
  bpm : ℤ
  time_signature : ℤ × ℤ
deriving Repr, DecidableEq

/-- Model of `MetronomeEngine.get_beat_info` (lines 168-183). -/
def MetronomeEngine.get_beat_info (e : MetronomeEngine) : BeatInfo :=
  { current_beat := e.state.current_beat,
    beats_per_bar := e.state.beats_per_bar,
    beat_in_bar := e.state.current_beat % e.state.beats_per_bar + 1,
    is_downbeat := e.state.current_beat % e.state.beats_per_bar == 0,
    is_running := e.state.is_running,
    bpm := e.state.bpm,
    time_signature := (e.state.beats_per_bar, e.state.beat_value) }

/-- The `TapTempo` instance attributes (metronome.py lines 201-218). -/
structure TapTempo where
  max_taps : ℕ
  timeout : ℚ
  tap_times : List ℚ
deriving Repr, DecidableEq

/-- Model of `TapTempo.__init__` with its default arguments `max_taps=8, timeout=2.0`. -/
def TapTempo.init : TapTempo := { max_taps := 8, timeout := 2, tap_times := [] }

/-- Python's `round` on a rational value: round half to even. -/
def pyRound (q : ℚ) : ℤ :=
  let f : ℤ := ⌊q⌋
  if q - f < 1/2 then f
  else if 1/2 < q - f then f + 1
  else if f % 2 = 0 then f else f + 1

/-- The mean of the consecutive differences of a list (0 for lists shorter
than 2): the `intervals` / `avg_interval` computation of `tap`
(lines 244-251). -/
def meanInterval (l : List ℚ) : ℚ :=
  let intervals := (l.zip l.tail).map (fun p => p.2 - p.1)
  intervals.sum / (intervals.length : ℚ)

/-- Model of `TapTempo.tap` (lines 220-259), with `now` the value of
`time.perf_counter()`.  The taps older than the timeout are pruned
(strictly-greater comparison, line 231), `now` is appended, the list is
truncated to the last `max_taps` entries, and with at least two retained taps
the clamped rounded `60 / avg_interval` estimate is returned.  The state
component is the updated `tap_times` (already mutated before the division);
the `Except` component is `.error` exactly when Python raises
`ZeroDivisionError` on `60.0 / avg_interval` (an exactly-zero mean interval). -/
def TapTempo.tap (tt : TapTempo) (now : ℚ) : TapTempo × Except String (Option ℤ) :=
  let cutoff_time := now - tt.timeout
  let pruned := tt.tap_times.filter (fun t => decide (cutoff_time < t))
  let appended := pruned ++ [now]
  let times := if tt.max_taps < appended.length
               then appended.drop (appended.length - tt.max_taps) else appended
  let tt' := { tt with tap_times := times }
  if times.length < 2 then (tt', .ok none)
  else
    let avg_interval := meanInterval times
    if avg_interval = 0 then (tt', .error "ZeroDivisionError: float division by zero")
    else
      let bpm := 60 / avg_interval
      (tt', .ok (some (max 40 (min 240 (pyRound bpm)))))

/-- Model of `TapTempo.reset` (lines 261-263). -/
def TapTempo.reset (tt : TapTempo) : TapTempo := { tt with tap_times := [] }

/-- Model of `TapTempo.get_tap_count` (lines 265-267). -/
def TapTempo.get_tap_count (tt : TapTempo) : ℕ := tt.tap_times.length

/-- The last `n` entries of a list, Python's `l[-n:]` (for `n ≥ 1`). -/
def lastN (n : ℕ) (l : List ℚ) : List ℚ := l.drop (l.length - n)

/-! Helper lemmas. -/

/-- The Python slice `l[-n:]` coincides with the conditional truncation
`if n < len(l) then l[-n:] else l` performed by `tap`. -/
theorem lastN_of_ite (n : ℕ) (l : List ℚ) :
    (if n < l.length then l.drop (l.length - n) else l) = lastN n l := by
  unfold lastN
  split
  · rfl
  · rename_i h
    rw [Nat.sub_eq_zero_of_le (Nat.le_of_not_lt h), List.drop_zero]

/-- One loop iteration leaves `beats_per_bar` and the stop event untouched,
increments the beat counter, and emits the pre-increment counter with its
downbeat flag. -/
theorem loop_iter_frame (e : MetronomeEngine) (now : ℚ) :
    (e.loop_iter now).1.state.beats_per_bar = e.state.beats_per_bar
    ∧ (e.loop_iter now).1.stop_event = e.stop_event
    ∧ (e.loop_iter now).1.state.current_beat = e.state.current_beat + 1
    ∧ (e.loop_iter now).2.beatIndex = e.state.current_beat
    ∧ (e.loop_iter now).2.isDownbeat
        = (e.state.current_beat % e.state.beats_per_bar == 0) := by
  refine ⟨rfl, rfl, rfl, rfl, rfl⟩

/-- Every beat event of a run carries the downbeat flag computed from its own
index and the (constant) `beats_per_bar` of the starting state. -/
theorem run_while_all_downbeat (e : MetronomeEngine) (times : List ℚ) :
    ((e.run_while times).2.all
      (fun ev => ev.isDownbeat == (ev.beatIndex % e.state.beats_per_bar == 0))) = true := by
  induction times generalizing e with
  | nil => simp [MetronomeEngine.run_while]
  | cons now rest ih =>
    by_cases hs : e.stop_event
    · simp [MetronomeEngine.run_while, hs]
    · have hbar : (e.loop_iter now).1.state.beats_per_bar = e.state.beats_per_bar := rfl
      have htail := ih (e.loop_iter now).1
      rw [hbar] at htail
      have hev : (e.loop_iter now).2.isDownbeat
          = ((e.loop_iter now).2.beatIndex % e.state.beats_per_bar == 0) := rfl
      simp [MetronomeEngine.run_while, hs, htail, hev]

/-- The first beat event of a run (when any) carries the starting value of
the beat counter. -/
theorem run_while_head_index (e : MetronomeEngine) (times : List ℚ) :
    ∀ ev ∈ (e.run_while times).2.head?, ev.beatIndex = e.state.current_beat := by
  intro ev hev
  cases times with
  | nil => simp [MetronomeEngine.run_while] at hev
  | cons now rest =>
    by_cases hs : e.stop_event
    · simp [MetronomeEngine.run_while, hs] at hev
    · have hrw : e.run_while (now :: rest)
          = (((e.loop_iter now).1.run_while rest).1,
             (e.loop_iter now).2 :: ((e.loop_iter now).1.run_while rest).2) := by
        simp [MetronomeEngine.run_while, hs]
      rw [hrw] at hev
      simp only [List.head?_cons, Option.mem_def, Option.some.injEq] at hev
      subst hev
      rfl

/-- The emitted beat indices of a run are consecutive: each one is the
predecessor plus one. -/
theorem run_while_chain (e : MetronomeEngine) (times : List ℚ) :
    ((e.run_while times).2.map (fun ev => ev.beatIndex)).Chain' (fun a b => b = a + 1) := by
  induction times generalizing e with
  | nil => simp [MetronomeEngine.run_while]
  | cons now rest ih =>
    by_cases hs : e.stop_event
    · simp [MetronomeEngine.run_while, hs]
    · have hrw : e.run_while (now :: rest)
          = (((e.loop_iter now).1.run_while rest).1,
             (e.loop_iter now).2 :: ((e.loop_iter now).1.run_while rest).2) := by
        simp [MetronomeEngine.run_while, hs]
      rw [hrw, List.map_cons, List.chain'_cons']
      refine ⟨?_, ih (e.loop_iter now).1⟩
      intro b hb
      rw [List.head?_map, Option.mem_def, Option.map_eq_some'] at hb
      obtain ⟨ev, hev, hb⟩ := hb
      have h1 := run_while_head_index (e.loop_iter now).1 rest ev (Option.mem_def.mpr hev)
      have h2 : (e.loop_iter now).1.state.current_beat = e.state.current_beat + 1 := rfl
      have h3 : (e.loop_iter now).2.beatIndex = e.state.current_beat := rfl
      rw [← hb, h1, h2, h3]

/-! Claim theorems. -/

/-- C1: each executed iteration of the running timing loop emits one beat for
the current counter and advances the deadline by absolute accumulation,
`next_beat_time := old_deadline + beat_duration`; only when the iteration
begins with `now` more than one full beat duration past the deadline is the
deadline first reset to `now` (and then advanced), so the new deadline never
depends on `now` in the non-stalled case and no burst of catch-up beats is
fired after a stall. -/
theorem C1_absolute_deadline_accumulation (e : MetronomeEngine) (now : ℚ) :
    (e.loop_iter now).1.next_beat_time
      = (if e.next_beat_time + e.beat_duration < now then now else e.next_beat_time)
        + e.beat_duration
    ∧ (e.loop_iter now).2.beatIndex = e.state.current_beat := by
  exact ⟨rfl, rfl⟩

/-- C3: the setter `set_tempo` succeeds exactly on `40 ≤ bpm ≤ 240`, storing `bpm` and
setting `beat_duration = 60 / bpm`; out-of-range arguments raise `ValueError`
and leave the whole engine unchanged. -/
theorem C3_set_tempo_validation (e : MetronomeEngine) (bpm : ℤ) :
    (40 ≤ bpm ∧ bpm ≤ 240 →
      e.set_tempo bpm
        = ({ e with
             state := { e.state with bpm := bpm },
             beat_duration := 60 / (bpm : ℚ) }, none))
    ∧ (¬(40 ≤ bpm ∧ bpm ≤ 240) →
      (e.set_tempo bpm).1 = e
      ∧ (e.set_tempo bpm).2
          = some ("ValueError: BPM must be between 40 and 240, got " ++ toString bpm)) := by
  constructor
  · intro h
    simp [MetronomeEngine.set_tempo, h.1, h.2]
  · intro h
    rw [Decidable.not_and_iff_or_not] at h
    rcases h with h | h
    · constructor <;> simp [MetronomeEngine.set_tempo, h]
    · constructor <;> simp [MetronomeEngine.set_tempo, h]

/-- C3 witness: calling `set_tempo 100` succeeds with duration `3/5`; `set_tempo 300`
fails and leaves the engine unchanged. -/
theorem C3_set_tempo_validation_witness :
    MetronomeEngine.init.set_tempo 100
      = ({ MetronomeEngine.init with
           state := { MetronomeEngine.init.state with bpm := 100 },
           beat_duration := 60 / (100 : ℚ) }, none)
    ∧ (MetronomeEngine.init.set_tempo 300).1 = MetronomeEngine.init :=
  ⟨(C3_set_tempo_validation MetronomeEngine.init 100).1 ⟨by norm_num, by norm_num⟩,
   ((C3_set_tempo_validation MetronomeEngine.init 300).2 (by norm_num)).1⟩

/-- C4: the setter `set_time_signature` succeeds exactly on numerators in `[1,16]` and
denominators in `{2,4,8,16}`, storing both; any other pair raises
`ValueError` and leaves the whole engine unchanged. -/
theorem C4_time_signature_validation (e : MetronomeEngine) (numerator denominator : ℤ) :
    ((1 ≤ numerator ∧ numerator ≤ 16)
        ∧ (denominator = 2 ∨ denominator = 4 ∨ denominator = 8 ∨ denominator = 16) →
      e.set_time_signature numerator denominator
        = ({ e with
             state := { e.state with
                        beats_per_bar := numerator, beat_value := denominator } }, none))
    ∧ (¬((1 ≤ numerator ∧ numerator ≤ 16)
        ∧ (denominator = 2 ∨ denominator = 4 ∨ denominator = 8 ∨ denominator = 16)) →
      (e.set_time_signature numerator denominator).1 = e
      ∧ ∃ msg, (e.set_time_signature numerator denominator).2 = some msg) := by
  constructor
  · intro h
    simp [MetronomeEngine.set_time_signature, h.1.1, h.1.2, h.2]
  · intro h
    rw [Decidable.not_and_iff_or_not] at h
    by_cases h1 : 1 ≤ numerator ∧ numerator ≤ 16
    · have h2 : ¬(denominator = 2 ∨ denominator = 4 ∨ denominator = 8 ∨ denominator = 16) :=
        by tauto
      constructor <;> simp [MetronomeEngine.set_time_signature, h1.1, h1.2, h2]
    · rw [Decidable.not_and_iff_or_not] at h1
      rcases h1 with h1 | h1
      · constructor <;> simp [MetronomeEngine.set_time_signature, h1]
      · constructor <;> simp [MetronomeEngine.set_time_signature, h1]

/-- C4 witness: calling `set_time_signature 3 8` succeeds; `set_time_signature 4 3`
fails and leaves the engine unchanged. -/
theorem C4_time_signature_validation_witness :
    MetronomeEngine.init.set_time_signature 3 8
      = ({ MetronomeEngine.init with
           state := { MetronomeEngine.init.state with
                      beats_per_bar := 3, beat_value := 8 } }, none)
    ∧ (MetronomeEngine.init.set_time_signature 4 3).1 = MetronomeEngine.init :=
  ⟨(C4_time_signature_validation MetronomeEngine.init 3 8).1 (by norm_num),
   ((C4_time_signature_validation MetronomeEngine.init 4 3).2 (by norm_num)).1⟩

/-- C2: every beat event emitted by a run has `isDownbeat` true exactly when
its `beatIndex mod beats_per_bar` is 0, and `get_beat_info` reports
`is_downbeat` and `beat_in_bar = current_beat mod beats_per_bar + 1` the same
way. -/
theorem C2_downbeat_characterisation (e : MetronomeEngine) (times : List ℚ) :
    ((e.run_while times).2.all
      (fun ev => ev.isDownbeat == (ev.beatIndex % e.state.beats_per_bar == 0))) = true
    ∧ e.get_beat_info.is_downbeat = (e.state.current_beat % e.state.beats_per_bar == 0)
    ∧ e.get_beat_info.beat_in_bar = e.state.current_beat % e.state.beats_per_bar + 1 :=
  ⟨run_while_all_downbeat e times, rfl, rfl⟩

/-- C7: over any run of the timing loop the emitted beat indices are
consecutive increments (each exactly one more than the previous), hence
strictly increasing with no index emitted twice; a single iteration emits
exactly one event carrying the pre-increment counter and increments the
counter by one. -/
theorem C7_strictly_increasing_indices (e : MetronomeEngine) (times : List ℚ) (now : ℚ) :
    ((e.run_while times).2.map (fun ev => ev.beatIndex)).Chain' (fun a b => b = a + 1)
    ∧ ((e.run_while times).2.map (fun ev => ev.beatIndex)).Pairwise (· < ·)
    ∧ (e.loop_iter now).2.beatIndex = e.state.current_beat
    ∧ (e.loop_iter now).1.state.current_beat = e.state.current_beat + 1 := by
  refine ⟨run_while_chain e times, ?_, rfl, rfl⟩
  rw [← List.chain'_iff_pairwise]
  exact (run_while_chain e times).imp (fun h => by omega)

/-- C6 counterexample: on a running engine whose timing thread fails to halt
within the 1-second join bound (`join_ok = false`), `stop()` still returns
with no error and the thread left running — the join timeout is silently
ignored, not surfaced as a fatal `SchedulerStopFailure`. -/
theorem C6_counterexample :
    (MetronomeEngine.init.start.stop false).2 = none
    ∧ (MetronomeEngine.init.start.stop false).1.thread_alive = true := by
  constructor <;>
    norm_num [MetronomeEngine.init, MetronomeEngine.start, MetronomeEngine.stop,
      MetronomeState.default]

/-- C6 (amended): calling `stop()` on a running engine joins the timing thread with a
bounded 1-second wait, sets the stop event (so the loop emits no further
beat), clears the running flag and drops the thread reference — but its
result is the same whether or not the thread halted within the bound: no
error is ever raised, the join outcome being silently discarded. -/
theorem C6_stop_join_ignored (e : MetronomeEngine) (join_ok : Bool)
    (h : e.state.is_running = true) :
    stop_join_timeout = 1
    ∧ (e.stop join_ok).2 = none
    ∧ (e.stop join_ok).1.state.is_running = false
    ∧ (e.stop join_ok).1.has_thread = false
    ∧ (e.stop join_ok).1.stop_event = true
    ∧ (∀ times : List ℚ, ((e.stop join_ok).1.run_while times).2 = [])
    ∧ (e.stop join_ok).1.thread_alive = (e.thread_alive && !join_ok) := by
  have hstop : e.stop join_ok
      = ({ e with
           state := { e.state with is_running := false, is_playing := false },
           stop_event := true, has_thread := false,
           thread_alive := e.thread_alive && !join_ok }, none) := by
    simp [MetronomeEngine.stop, h]
  refine ⟨rfl, by rw [hstop], by rw [hstop], by rw [hstop], by rw [hstop], ?_, by rw [hstop]⟩
  intro times
  cases times with
  | nil => rw [hstop]; rfl
  | cons now rest => rw [hstop]; simp [MetronomeEngine.run_while]

/-- C6 witness: stopping a freshly started engine with a failed join. -/
theorem C6_stop_join_ignored_witness :
    stop_join_timeout = 1
    ∧ (MetronomeEngine.init.start.stop true).2 = none
    ∧ (MetronomeEngine.init.start.stop true).1.state.is_running = false
    ∧ (MetronomeEngine.init.start.stop true).1.has_thread = false
    ∧ (MetronomeEngine.init.start.stop true).1.stop_event = true
    ∧ (∀ times : List ℚ, ((MetronomeEngine.init.start.stop true).1.run_while times).2 = [])
    ∧ (MetronomeEngine.init.start.stop true).1.thread_alive
        = (MetronomeEngine.init.start.thread_alive && !true) :=
  C6_stop_join_ignored MetronomeEngine.init.start true
    (by norm_num [MetronomeEngine.init, MetronomeEngine.start, MetronomeState.default])

/-- C8: `start()` on a stopped engine resets the beat counter to 0, sets the
running flag and spawns the timing thread; `start()` while running changes
nothing at all; `stop()` while stopped changes nothing and raises nothing. -/
theorem C8_start_stop_idempotence (e : MetronomeEngine) (join_ok : Bool) :
    (e.state.is_running = false →
      e.start.state.current_beat = 0
      ∧ e.start.state.is_running = true
      ∧ e.start.has_thread = true)
    ∧ (e.state.is_running = true → e.start = e)
    ∧ (e.state.is_running = false → e.stop join_ok = (e, none)) := by
  refine ⟨?_, ?_, ?_⟩
  · intro h
    refine ⟨?_, ?_, ?_⟩ <;> simp [MetronomeEngine.start, h]
  · intro h
    simp [MetronomeEngine.start, h]
  · intro h
    simp [MetronomeEngine.stop, h]

/-- C8 witness: the fresh engine is stopped, so `start` resets and runs it,
`stop` on it is a no-op, and `start` on the started engine is a no-op. -/
theorem C8_start_stop_idempotence_witness :
    (MetronomeEngine.init.start.state.current_beat = 0
      ∧ MetronomeEngine.init.start.state.is_running = true
      ∧ MetronomeEngine.init.start.has_thread = true)
    ∧ MetronomeEngine.init.start.start = MetronomeEngine.init.start
    ∧ MetronomeEngine.init.stop false = (MetronomeEngine.init, none) :=
  ⟨(C8_start_stop_idempotence MetronomeEngine.init false).1 rfl,
   (C8_start_stop_idempotence MetronomeEngine.init.start false).2.1
     (by norm_num [MetronomeEngine.init, MetronomeEngine.start, MetronomeState.default]),
   (C8_start_stop_idempotence MetronomeEngine.init false).2.2 rfl⟩

/-- C10: a successful `set_tempo` changes only the stored `bpm` and the beat
duration; the time signature, beat counter, flags, deadline, stop event and
thread fields are all untouched. -/
theorem C10_set_tempo_frame (e : MetronomeEngine) (bpm : ℤ)
    (h40 : 40 ≤ bpm) (h240 : bpm ≤ 240) :
    (e.set_tempo bpm).2 = none
    ∧ (e.set_tempo bpm).1.state.bpm = bpm
    ∧ (e.set_tempo bpm).1.beat_duration = 60 / (bpm : ℚ)
    ∧ (e.set_tempo bpm).1.state.beats_per_bar = e.state.beats_per_bar
    ∧ (e.set_tempo bpm).1.state.beat_value = e.state.beat_value
    ∧ (e.set_tempo bpm).1.state.current_beat = e.state.current_beat
    ∧ (e.set_tempo bpm).1.state.is_running = e.state.is_running
    ∧ (e.set_tempo bpm).1.state.is_playing = e.state.is_playing
    ∧ (e.set_tempo bpm).1.next_beat_time = e.next_beat_time
    ∧ (e.set_tempo bpm).1.stop_event = e.stop_event
    ∧ (e.set_tempo bpm).1.has_thread = e.has_thread := by
  have hrw : e.set_tempo bpm
      = ({ e with
           state := { e.state with bpm := bpm },
           beat_duration := 60 / (bpm : ℚ) }, none) := by
    simp [MetronomeEngine.set_tempo, h40, h240]
  rw [hrw]
  refine ⟨rfl, rfl, rfl, rfl, rfl, rfl, rfl, rfl, rfl, rfl, rfl⟩

/-- C10 witness: calling `set_tempo 100` on the fresh engine keeps every other field. -/
theorem C10_set_tempo_frame_witness :
    (MetronomeEngine.init.set_tempo 100).2 = none
    ∧ (MetronomeEngine.init.set_tempo 100).1.state.bpm = 100
    ∧ (MetronomeEngine.init.set_tempo 100).1.beat_duration = 60 / ((100 : ℤ) : ℚ)
    ∧ (MetronomeEngine.init.set_tempo 100).1.state.beats_per_bar
        = MetronomeEngine.init.state.beats_per_bar
    ∧ (MetronomeEngine.init.set_tempo 100).1.state.beat_value
        = MetronomeEngine.init.state.beat_value
    ∧ (MetronomeEngine.init.set_tempo 100).1.state.current_beat
        = MetronomeEngine.init.state.current_beat
    ∧ (MetronomeEngine.init.set_tempo 100).1.state.is_running
        = MetronomeEngine.init.state.is_running
    ∧ (MetronomeEngine.init.set_tempo 100).1.state.is_playing
        = MetronomeEngine.init.state.is_playing
    ∧ (MetronomeEngine.init.set_tempo 100).1.next_beat_time
        = MetronomeEngine.init.next_beat_time
    ∧ (MetronomeEngine.init.set_tempo 100).1.stop_event = MetronomeEngine.init.stop_event
    ∧ (MetronomeEngine.init.set_tempo 100).1.has_thread = MetronomeEngine.init.has_thread :=
  C10_set_tempo_frame MetronomeEngine.init 100 (by norm_num) (by norm_num)

/-- The timestamps a call `tap()` at time `now` retains, as the spec
describes them: remove the timestamps older than `now - timeoutSeconds`,
append `now`, keep only the most recent `maxTaps` entries. -/
def retainedTaps (tt : TapTempo) (now : ℚ) : List ℚ :=
  lastN tt.max_taps ((tt.tap_times.filter (fun s => decide (now - tt.timeout < s))) ++ [now])

/-- Normal form of `tap`: the new `tap_times` are the retained timestamps,
and the result is `none` for fewer than two retained taps, a
`ZeroDivisionError` for a zero mean interval, and the clamped rounded
`60 / mean` otherwise. -/
theorem tap_eq (tt : TapTempo) (now : ℚ) :
    tt.tap now
      = ({ tt with tap_times := retainedTaps tt now },
         if (retainedTaps tt now).length < 2
         then .ok none
         else if meanInterval (retainedTaps tt now) = 0
         then .error "ZeroDivisionError: float division by zero"
         else .ok (some (max 40 (min 240 (pyRound (60 / meanInterval (retainedTaps tt now))))))) := by
  simp only [TapTempo.tap, retainedTaps, lastN_of_ite]
  split_ifs <;> rfl

/-- C5 counterexample: with a prior tap at time 5 and a second tap at the
same time 5, two timestamps remain after pruning, yet `tap` does not return
the claimed rounded-and-clamped estimate — the zero mean interval makes
`60.0 / avg_interval` raise `ZeroDivisionError`. -/
theorem C5_counterexample :
    ((TapTempo.mk 8 2 [5]).tap 5).1.tap_times.length = 2
    ∧ ((TapTempo.mk 8 2 [5]).tap 5).2
        = .error "ZeroDivisionError: float division by zero" := by
  constructor <;> norm_num [TapTempo.tap, meanInterval]

/-- C5 (amended): a call `tap()` at `now` retains exactly the pruned, appended and
truncated timestamps; with fewer than two retained it returns no estimate,
and with at least two retained — provided the mean consecutive interval is
nonzero (a zero mean raises `ZeroDivisionError` instead) — it returns
`round(60 / mean)` clamped to `[40,240]`.  In particular a single tap
returns no estimate, two taps 0.5 s apart return 120, a tap after
`timeoutSeconds` of idle behaves as a fresh first tap, and every returned
estimate lies in `[40,240]`. -/
theorem C5_tap_estimation (tt : TapTempo) (now t : ℚ) :
    (tt.tap now).1.tap_times = retainedTaps tt now
    ∧ ((retainedTaps tt now).length < 2 → (tt.tap now).2 = .ok none)
    ∧ (2 ≤ (retainedTaps tt now).length → meanInterval (retainedTaps tt now) ≠ 0 →
        (tt.tap now).2
          = .ok (some (max 40 (min 240 (pyRound (60 / meanInterval (retainedTaps tt now)))))))
    ∧ (TapTempo.init.tap t).2 = .ok none
    ∧ ((TapTempo.init.tap t).1.tap (t + 1/2)).2 = .ok (some 120)
    ∧ ((∀ s ∈ tt.tap_times, s ≤ now - tt.timeout) →
        tt.tap now = (TapTempo.mk tt.max_taps tt.timeout []).tap now)
    ∧ (∀ b : ℤ, (tt.tap now).2 = .ok (some b) → 40 ≤ b ∧ b ≤ 240) := by
  refine ⟨?_, ?_, ?_, ?_, ?_, ?_, ?_⟩
  · rw [tap_eq]
  · intro h
    rw [tap_eq]
    simp [h]
  · intro h1 h2
    rw [tap_eq]
    simp [Nat.not_lt.mpr h1, h2]
  · rw [tap_eq]
    simp [retainedTaps, TapTempo.init, lastN]
  · have h1 : (TapTempo.init.tap t).1 = ⟨8, 2, [t]⟩ := by
      rw [tap_eq]
      simp [retainedTaps, TapTempo.init, lastN]
    rw [h1, tap_eq]
    have hfil : List.filter (fun s => decide (t + 1/2 - 2 < s)) [t] = [t] := by
      rw [List.filter_cons, List.filter_nil, if_pos]
      simp only [decide_eq_true_eq]
      linarith
    have hret : retainedTaps ⟨8, 2, [t]⟩ (t + 1/2) = [t, t + 1/2] := by
      show lastN 8 ((List.filter (fun s => decide (t + 1/2 - 2 < s)) [t]) ++ [t + 1/2])
          = [t, t + 1/2]
      rw [hfil]
      rfl
    rw [hret]
    have hmean : meanInterval [t, t + 1/2] = 1/2 := by
      simp [meanInterval]
    rw [hmean]
    have h120 : (60 : ℚ) / (1/2) = 120 := by norm_num
    rw [h120]
    have hpr : pyRound 120 = 120 := by
      simp [pyRound]
    rw [hpr]
    norm_num
  · intro h
    have hf : tt.tap_times.filter (fun s => decide (now - tt.timeout < s)) = [] :=
      List.filter_eq_nil_iff.mpr (fun a ha => by
        simp only [decide_eq_true_eq]
        exact not_lt.mpr (h a ha))
    rw [tap_eq, tap_eq]
    simp [retainedTaps, hf]
  · intro b hb
    rw [tap_eq] at hb
    by_cases h1 : (retainedTaps tt now).length < 2
    · simp [h1] at hb
    · by_cases h2 : meanInterval (retainedTaps tt now) = 0
      · simp [h1, h2] at hb
      · simp only [h1, h2, if_false, if_neg] at hb
        have hb' : max 40 (min 240 (pyRound (60 / meanInterval (retainedTaps tt now)))) = b := by
          simpa using hb
        rw [← hb']
        exact ⟨le_max_left _ _, max_le (by norm_num) (min_le_left _ _)⟩

/-- C5 witness: concrete instances — a first tap from empty returns no
estimate, a second tap half a second later returns the general clamped
formula, a tap after the idle timeout equals a tap on a fresh estimator, and
the returned estimate obeys the bounds. -/
theorem C5_tap_estimation_witness :
    ((TapTempo.mk 8 2 []).tap 0).2 = .ok none
    ∧ ((TapTempo.mk 8 2 [0]).tap (1/2)).2
        = .ok (some (max 40 (min 240 (pyRound
            (60 / meanInterval (retainedTaps (TapTempo.mk 8 2 [0]) (1/2)))))))
    ∧ (TapTempo.mk 8 2 [-5]).tap 0 = (TapTempo.mk 8 2 []).tap 0
    ∧ (40 ≤ (120 : ℤ) ∧ (120 : ℤ) ≤ 240) := by
  refine ⟨?_, ?_, ?_, ?_⟩
  · exact (C5_tap_estimation (TapTempo.mk 8 2 []) 0 0).2.1
      (by norm_num [retainedTaps, lastN])
  · exact (C5_tap_estimation (TapTempo.mk 8 2 [0]) (1/2) 0).2.2.1
      (by norm_num [retainedTaps, lastN])
      (by norm_num [retainedTaps, lastN, meanInterval])
  · exact (C5_tap_estimation (TapTempo.mk 8 2 [-5]) 0 0).2.2.2.2.2.1
      (by intro s hs; simp at hs; norm_num [hs])
  · exact (C5_tap_estimation (TapTempo.mk 8 2 [0]) (1/2) 0).2.2.2.2.2.2 120
      (by norm_num [TapTempo.tap, meanInterval, pyRound])

/-- C9 counterexample: a pair of exactly equal tap timestamps (prior tap at
time 0, second tap also at time 0) does make `tap` fail with a division by
zero — `avg_interval` is exactly 0 and `60.0 / avg_interval` raises
`ZeroDivisionError`, so `tap` does not return normally on every input. -/
theorem C9_counterexample :
    ((TapTempo.mk 8 2 [0]).tap 0).2
      = .error "ZeroDivisionError: float division by zero" := by
  norm_num [TapTempo.tap, meanInterval]

/-- C9 (amended): whenever the retained timestamps do not have an exactly
zero mean consecutive interval (in particular whenever fewer than two remain),
`tap()` returns normally with either no estimate or an integer estimate
clamped to `[40,240]`; only an exactly zero mean interval (e.g. two equal
timestamps) makes the division `60 / meanInterval` raise. -/
theorem C9_tap_division_safety (tt : TapTempo) (now : ℚ)
    (h : (retainedTaps tt now).length < 2 ∨ meanInterval (retainedTaps tt now) ≠ 0) :
    ∃ r : Option ℤ, (tt.tap now).2 = .ok r
      ∧ ∀ b : ℤ, r = some b → 40 ≤ b ∧ b ≤ 240 := by
  rw [tap_eq]
  by_cases h1 : (retainedTaps tt now).length < 2
  · exact ⟨none, by simp [h1], by simp⟩
  · have h2 : meanInterval (retainedTaps tt now) ≠ 0 := by tauto
    refine ⟨some (max 40 (min 240 (pyRound (60 / meanInterval (retainedTaps tt now))))),
      by simp [h1, h2], ?_⟩
    intro b hb
    simp only [Option.some.injEq] at hb
    rw [← hb]
    exact ⟨le_max_left _ _, max_le (by norm_num) (min_le_left _ _)⟩

/-- C9 witness: a second tap half a second after a first one returns normally
with an estimate within the clamp bounds. -/
theorem C9_tap_division_safety_witness :
    ∃ r : Option ℤ, ((TapTempo.mk 8 2 [0]).tap (1/2)).2 = .ok r
      ∧ ∀ b : ℤ, r = some b → 40 ≤ b ∧ b ≤ 240 :=
  C9_tap_division_safety (TapTempo.mk 8 2 [0]) (1/2)
    (Or.inr (by norm_num [retainedTaps, lastN, meanInterval]))
